/-
Verification of the stream-messaging packet protocol
(header streamMessaging.hpp: enum messageTypes, packed struct msgpacket,
calcCheckSum, the two createMessage overloads, checksumIsOk, magicByteOk).

Machine integers are modelled as Nat with explicit `% 2 ^ w` truncation at
the points where the C++ code converts or stores into a fixed-width field.
The 4-byte union slot { float floatValue; size_t uintValue; } is modelled by
its bit pattern: a Nat below 2 ^ 32.  A float input is represented by the
bit pattern of its IEEE-754 single-precision encoding, so "bit-identical"
round-trip statements are statements about that Nat.  The reference
platform (RP2040, 32-bit ARM, little-endian) has a 4-byte size_t, which is
what makes sizeof(msgpacket) == 8 hold in the source.

Functions taking msgpacket& that mutate it become msgpacket -> msgpacket;
the two read-only checks taking msgpacket* return the (unchanged) packet
together with their Bool result.
-/
import Mathlib

namespace streamMessaging

/-- constexpr uint8_t MAGIC_BYTE = 0b10101010; -/
def MAGIC_BYTE : Nat := 0b10101010

/-- enum messageTypes, the closed set of message kinds, in source order. -/
inductive messageTypes where
  | WAVELEN0 | BANK0 | BANK1 | CTRL
  | CTRL0 | CTRL1 | CTRL2 | CTRL3 | CTRL4 | CTRL5 | DETUNE | OCTSPREAD
  | METAMOD3 | METAMOD4 | METAMOD5 | METAMOD6 | METAMOD7 | METAMOD8
  deriving DecidableEq

/-- The numeric ordinal of each enumerator (C enum values, assigned 0, 1, 2, …
in declaration order). -/
def messageTypes.toNat : messageTypes → Nat
  | .WAVELEN0 => 0
  | .BANK0 => 1
  | .BANK1 => 2
  | .CTRL => 3
  | .CTRL0 => 4
  | .CTRL1 => 5
  | .CTRL2 => 6
  | .CTRL3 => 7
  | .CTRL4 => 8
  | .CTRL5 => 9
  | .DETUNE => 10
  | .OCTSPREAD => 11
  | .METAMOD3 => 12
  | .METAMOD4 => 13
  | .METAMOD5 => 14
  | .METAMOD6 => 15
  | .METAMOD7 => 16
  | .METAMOD8 => 17

/-- All enumerators of messageTypes in declaration order. -/
def allKinds : List messageTypes :=
  [.WAVELEN0, .BANK0, .BANK1, .CTRL,
   .CTRL0, .CTRL1, .CTRL2, .CTRL3, .CTRL4, .CTRL5, .DETUNE, .OCTSPREAD,
   .METAMOD3, .METAMOD4, .METAMOD5, .METAMOD6, .METAMOD7, .METAMOD8]

/-- struct __attribute__((packed)) msgpacket.  Each field holds the content
of its byte slot: value is the 4-byte union slot's bit pattern, msgType and
magicByte are single bytes, checksum is the 2-byte uint16_t. -/
structure msgpacket where
  value : Nat
  msgType : Nat
  magicByte : Nat
  checksum : Nat
  deriving DecidableEq

/-- A packet whose fields all fit their byte slots: the states the physical
8-byte struct can actually hold. -/
def msgpacket.WF (p : msgpacket) : Prop :=
  p.value < 2 ^ 32 ∧ p.msgType < 2 ^ 8 ∧ p.magicByte < 2 ^ 8 ∧ p.checksum < 2 ^ 16

instance (p : msgpacket) : Decidable p.WF := by
  unfold msgpacket.WF
  exact inferInstance

/-- The 8 bytes of the packed struct in memory order on the little-endian
reference platform: value bytes 0-3, msgType byte 4, magicByte byte 5,
checksum bytes 6-7. -/
def msgpacket.toBytes (p : msgpacket) : List Nat :=
  [p.value % 2 ^ 8, p.value / 2 ^ 8 % 2 ^ 8, p.value / 2 ^ 16 % 2 ^ 8,
   p.value / 2 ^ 24 % 2 ^ 8,
   p.msgType % 2 ^ 8,
   p.magicByte % 2 ^ 8,
   p.checksum % 2 ^ 8, p.checksum / 2 ^ 8 % 2 ^ 8]

/-- Reassemble a packet from exactly 8 bytes laid out as in
msgpacket.toBytes; any other byte count is rejected. -/
def msgpacket.fromBytes : List Nat → Option msgpacket
  | [b0, b1, b2, b3, b4, b5, b6, b7] =>
      some { value := b0 + 2 ^ 8 * b1 + 2 ^ 16 * b2 + 2 ^ 24 * b3,
             msgType := b4, magicByte := b5,
             checksum := b6 + 2 ^ 8 * b7 }
  | _ => none

/-- void calcCheckSum(msgpacket &msg):
uint32_t v = msg.value.uintValue; msg.checksum = (uint16_t)(v ^ (v >> 16) ^ msg.msgType);
The uint32_t read of the 4-byte slot is `% 2 ^ 32`, the (uint16_t) cast is
`% 2 ^ 16`. -/
def calcCheckSum (msg : msgpacket) : msgpacket :=
  let v : Nat := msg.value % 2 ^ 32
  { msg with checksum := ((v ^^^ (v >>> 16)) ^^^ msg.msgType) % 2 ^ 16 }

/-- void createMessage(msgpacket&, const float value, const messageTypes msgType):
stores the float's bit pattern into the union slot, the kind's ordinal into
msgType, then recomputes the checksum.  The float argument is modelled by
its 32-bit IEEE-754 bit pattern. -/
def createMessageFloat (msg : msgpacket) (value : Nat) (msgType : messageTypes) :
    msgpacket :=
  calcCheckSum { msg with value := value % 2 ^ 32, msgType := msgType.toNat }

/-- void createMessage(msgpacket&, const size_t value, const messageTypes msgType):
the size_t overload; on the 32-bit reference platform size_t is 4 bytes, so
the store into the union slot truncates to 32 bits. -/
def createMessageUint (msg : msgpacket) (value : Nat) (msgType : messageTypes) :
    msgpacket :=
  calcCheckSum { msg with value := value % 2 ^ 32, msgType := msgType.toNat }

/-- bool checksumIsOk(msgpacket *msg): recompute the checksum from the
current value and msgType and compare with the stored checksum field.  The
packet is taken by pointer and only read, so the embedding returns it
unchanged together with the Bool result. -/
def checksumIsOk (msg : msgpacket) : msgpacket × Bool :=
  let v : Nat := msg.value % 2 ^ 32
  (msg, msg.checksum == ((v ^^^ (v >>> 16)) ^^^ msg.msgType) % 2 ^ 16)

/-- bool magicByteOk(msgpacket *msg): msg->magicByte == MAGIC_BYTE. -/
def magicByteOk (msg : msgpacket) : msgpacket × Bool :=
  (msg, msg.magicByte == MAGIC_BYTE)

/-- The checksum formula as the spec words it: low 16 bits of
(v XOR (v >> 16) XOR msgType). -/
def checksumSpec (v msgType : Nat) : Nat :=
  ((v ^^^ (v >>> 16)) ^^^ msgType) % 2 ^ 16

/-- IEEE-754 single-precision bit pattern of 440.0f. -/
def floatBits440 : Nat := 0x43DC0000

/-- Flip bit i of the 4-byte value slot, leaving every other field (in
particular the stored checksum) untouched. -/
def flipValueBit (q : msgpacket) (i : Nat) : msgpacket :=
  { q with value := q.value ^^^ 2 ^ i }

/-- XOR the 4-byte value slot with ((m << 16) | m): flip the same bit
positions in both 16-bit halves. -/
def corruptBothHalves (q : msgpacket) (m : Nat) : msgpacket :=
  { q with value := q.value ^^^ ((m <<< 16) ||| m) }

/-- Checksum recomputation after construction always matches the stored
checksum: the value slot is unchanged and below 2 ^ 32, so the uint32_t
read yields the same bits that calcCheckSum folded. -/
theorem checksumIsOk_calcCheckSum (msg : msgpacket) :
    (checksumIsOk (calcCheckSum msg)).2 = true := by
  simp [checksumIsOk, calcCheckSum, Nat.mod_mod]

/-- Truncation to a power of two distributes over XOR. -/
theorem xor_mod_two_pow (a b n : Nat) :
    (a ^^^ b) % 2 ^ n = (a % 2 ^ n) ^^^ (b % 2 ^ n) := by
  apply Nat.eq_of_testBit_eq
  intro i
  simp [Bool.and_xor_distrib_left]

/-- Flipping one of the 32 value bits always changes the xor-fold checksum:
the flipped bit lands in exactly one of the two 16-bit halves, so exactly
one bit of the folded result flips. -/
theorem checksumSpec_flip_ne (w t i : Nat) (hi : i < 32) :
    checksumSpec (w ^^^ 2 ^ i) t ≠ checksumSpec w t := by
  intro h
  rcases Nat.lt_or_ge i 16 with h16 | h16
  · have hb := congrArg (fun x => Nat.testBit x i) h
    simp only [checksumSpec, Nat.testBit_mod_two_pow, Nat.testBit_xor,
      Nat.testBit_shiftRight, Nat.testBit_two_pow] at hb
    cases hw1 : Nat.testBit w i <;> cases hw2 : Nat.testBit w (16 + i) <;>
      cases ht1 : Nat.testBit t i <;>
        simp [h16, hw1, hw2, ht1, show ¬(i = 16 + i) from by omega] at hb
  · have hb := congrArg (fun x => Nat.testBit x (i - 16)) h
    simp only [checksumSpec, Nat.testBit_mod_two_pow, Nat.testBit_xor,
      Nat.testBit_shiftRight, Nat.testBit_two_pow] at hb
    rw [show 16 + (i - 16) = i from by omega] at hb
    cases hw1 : Nat.testBit w (i - 16) <;> cases hw2 : Nat.testBit w i <;>
      cases ht1 : Nat.testBit t (i - 16) <;>
        simp [hw1, hw2, ht1, show i - 16 < 16 from by omega,
          show ¬(i = i - 16) from by omega] at hb

/-- A single-bit flip of the value slot of a freshly checksummed packet is
always caught by the checksum comparison. -/
theorem checksumIsOk_flip_calcCheckSum (msg : msgpacket) (i : Nat)
    (hi : i < 32) :
    (checksumIsOk (flipValueBit (calcCheckSum msg) i)).2 = false := by
  have hpow : (2 : Nat) ^ i < 2 ^ 32 := Nat.pow_lt_pow_right (by omega) hi
  have hne := checksumSpec_flip_ne (msg.value % 2 ^ 32) msg.msgType i hi
  show (checksumSpec (msg.value % 2 ^ 32) msg.msgType ==
      checksumSpec ((msg.value ^^^ 2 ^ i) % 2 ^ 32) msg.msgType) = false
  rw [xor_mod_two_pow, Nat.mod_eq_of_lt hpow, beq_eq_false_iff_ne]
  exact Ne.symm hne

/-- The mirrored-halves corruption mask ((m << 16) | m) cancels out of the
xor-fold: low and high half each pick up the same XOR with m, which the
fold then cancels, leaving the 16-bit checksum unchanged. -/
theorem checksumSpec_corrupt (w t m : Nat) (hm : m < 2 ^ 16) :
    checksumSpec ((w ^^^ ((m <<< 16) ||| m)) % 2 ^ 32) t =
      checksumSpec (w % 2 ^ 32) t := by
  apply Nat.eq_of_testBit_eq
  intro j
  rcases Nat.lt_or_ge j 16 with h16 | h16
  · have hmb : Nat.testBit m (16 + j) = false :=
      Nat.testBit_lt_two_pow
        (lt_of_lt_of_le hm (Nat.pow_le_pow_right (by omega) (by omega)))
    simp only [checksumSpec, Nat.testBit_mod_two_pow, Nat.testBit_xor,
      Nat.testBit_shiftRight, Nat.testBit_or, Nat.testBit_shiftLeft]
    cases hw1 : Nat.testBit w j <;> cases hw2 : Nat.testBit w (16 + j) <;>
      cases hm1 : Nat.testBit m j <;> cases ht1 : Nat.testBit t j <;>
        simp [h16, hmb, hw1, hw2, hm1, ht1, show j < 32 from by omega,
          show 16 + j < 32 from by omega, show ¬(16 ≤ j) from by omega,
          show (16 : Nat) ≤ 16 + j from by omega,
          show 16 + j - 16 = j from by omega]
  · simp only [checksumSpec, Nat.testBit_mod_two_pow]
    simp [show ¬(j < 16) from by omega]

/-- C1: the wire layout of a msgpacket is exactly 8 bytes, in field order
value (4 bytes), msgType (1), magicByte (1), checksum (2), with no padding:
serialising any physically representable packet yields exactly 8 bytes and
deserialising them restores the packet unchanged. -/
theorem C1_layout_eight_bytes (p : msgpacket) (h : p.WF) :
    p.toBytes.length = 8 ∧ msgpacket.fromBytes p.toBytes = some p := by
  obtain ⟨v, t, m, c⟩ := p
  obtain ⟨hv, ht, hm, hc⟩ := h
  dsimp only at hv ht hm hc
  refine ⟨rfl, ?_⟩
  simp only [msgpacket.toBytes, msgpacket.fromBytes, Option.some.injEq,
    msgpacket.mk.injEq]
  refine ⟨?_, ?_, ?_, ?_⟩ <;> omega

theorem C1_layout_eight_bytes_witness :
    (msgpacket.toBytes ⟨0x43DC0000, 10, 170, 0⟩).length = 8 ∧
      msgpacket.fromBytes (msgpacket.toBytes ⟨0x43DC0000, 10, 170, 0⟩) =
        some ⟨0x43DC0000, 10, 170, 0⟩ :=
  C1_layout_eight_bytes ⟨0x43DC0000, 10, 170, 0⟩ (by decide)

/-- C2: calcCheckSum stores into the checksum field the low 16 bits of
(v XOR (v >> 16) XOR msgType), where v is the 4-byte value slot read as a
32-bit unsigned bit pattern (whatever representation stored it), and leaves
value, msgType and magicByte unchanged. -/
theorem C2_calcCheckSum_spec (msg : msgpacket) :
    (calcCheckSum msg).checksum = checksumSpec (msg.value % 2 ^ 32) msg.msgType ∧
      (calcCheckSum msg).value = msg.value ∧
      (calcCheckSum msg).msgType = msg.msgType ∧
      (calcCheckSum msg).magicByte = msg.magicByte := by
  refine ⟨rfl, rfl, rfl, rfl⟩

/-- C3: round-trip construction.  For every float bit pattern b and kind k,
building a packet with the float overload stores exactly b in the value
slot (so reading it back under the float interpretation is bit-identical)
and stores k's ordinal in msgType; the unsigned-integer overload does the
same for every u that fits the 4-byte slot. -/
theorem C3_roundtrip_construction (p : msgpacket) (b u : Nat) (k : messageTypes)
    (hb : b < 2 ^ 32) (hu : u < 2 ^ 32) :
    (createMessageFloat p b k).value = b ∧
      (createMessageFloat p b k).msgType = k.toNat ∧
      (createMessageUint p u k).value = u ∧
      (createMessageUint p u k).msgType = k.toNat := by
  simp [createMessageFloat, createMessageUint, calcCheckSum,
    Nat.mod_eq_of_lt hb, Nat.mod_eq_of_lt hu]
  omega

theorem C3_roundtrip_construction_witness :
    (createMessageFloat ⟨0, 0, 170, 0⟩ floatBits440 .DETUNE).value = floatBits440 ∧
      (createMessageFloat ⟨0, 0, 170, 0⟩ floatBits440 .DETUNE).msgType =
        messageTypes.DETUNE.toNat ∧
      (createMessageUint ⟨0, 0, 170, 0⟩ 0xFFFFFFFF .DETUNE).value = 0xFFFFFFFF ∧
      (createMessageUint ⟨0, 0, 170, 0⟩ 0xFFFFFFFF .DETUNE).msgType =
        messageTypes.DETUNE.toNat :=
  C3_roundtrip_construction ⟨0, 0, 170, 0⟩ floatBits440 0xFFFFFFFF .DETUNE
    (by decide) (by decide)

/-- C4: immediately after either construction overload, checksumIsOk holds,
for every value and kind; in particular, constructing float 440.0 (bit
pattern floatBits440) with kind DETUNE (ordinal 10) into storage whose
magic byte is the constant gives a packet passing both checks, with the
value slot reading back 440.0 bit-identically. -/
theorem C4_verify_after_construction (p q : msgpacket) (b u : Nat)
    (k : messageTypes) (hq : q.magicByte = MAGIC_BYTE) :
    (checksumIsOk (createMessageFloat p b k)).2 = true ∧
      (checksumIsOk (createMessageUint p u k)).2 = true ∧
      (checksumIsOk (createMessageFloat q floatBits440 .DETUNE)).2 = true ∧
      (magicByteOk (createMessageFloat q floatBits440 .DETUNE)).2 = true ∧
      (createMessageFloat q floatBits440 .DETUNE).value = floatBits440 ∧
      messageTypes.DETUNE.toNat = 10 := by
  refine ⟨checksumIsOk_calcCheckSum _, checksumIsOk_calcCheckSum _,
    checksumIsOk_calcCheckSum _, ?_, rfl, rfl⟩
  simp [magicByteOk, createMessageFloat, calcCheckSum, hq]

theorem C4_verify_after_construction_witness :
    (checksumIsOk (createMessageFloat ⟨0, 0, 170, 0⟩ 1 .CTRL)).2 = true ∧
      (checksumIsOk (createMessageUint ⟨0, 0, 170, 0⟩ 2 .CTRL)).2 = true ∧
      (checksumIsOk (createMessageFloat ⟨0, 0, 170, 0⟩ floatBits440 .DETUNE)).2 = true ∧
      (magicByteOk (createMessageFloat ⟨0, 0, 170, 0⟩ floatBits440 .DETUNE)).2 = true ∧
      (createMessageFloat ⟨0, 0, 170, 0⟩ floatBits440 .DETUNE).value = floatBits440 ∧
      messageTypes.DETUNE.toNat = 10 :=
  C4_verify_after_construction ⟨0, 0, 170, 0⟩ ⟨0, 0, 170, 0⟩ 1 2 .CTRL (by decide)

/-- C5: checksumIsOk answers true exactly when the stored checksum field
equals what calcCheckSum would store from the packet's current value and
msgType, false otherwise; its only output is that Bool. -/
theorem C5_checksumIsOk_iff (p : msgpacket) :
    ((checksumIsOk p).2 = true ↔ p.checksum = (calcCheckSum p).checksum) ∧
      ((checksumIsOk p).2 = false ↔ p.checksum ≠ (calcCheckSum p).checksum) := by
  constructor
  · simp [checksumIsOk, calcCheckSum]
  · simp [checksumIsOk, calcCheckSum]

/-- C6: magicByteOk answers true exactly when the magicByte field holds the
constant MAGIC_BYTE = 170; it still holds right after either construction
overload runs on storage stamped with the constant, and answers false on
any other magic-byte content. -/
theorem C6_magicByteOk_iff (p r q : msgpacket) (b : Nat) (k : messageTypes)
    (hr : r.magicByte = 170) (hq : q.magicByte ≠ 170) :
    ((magicByteOk p).2 = true ↔ p.magicByte = MAGIC_BYTE) ∧
      MAGIC_BYTE = 170 ∧
      (magicByteOk (createMessageFloat r b k)).2 = true ∧
      (magicByteOk (createMessageUint r b k)).2 = true ∧
      (magicByteOk q).2 = false := by
  refine ⟨by simp [magicByteOk], rfl, ?_, ?_, ?_⟩
  · simp [magicByteOk, createMessageFloat, calcCheckSum, hr, MAGIC_BYTE]
  · simp [magicByteOk, createMessageUint, calcCheckSum, hr, MAGIC_BYTE]
  · simp [magicByteOk, MAGIC_BYTE, hq]

theorem C6_magicByteOk_iff_witness :
    ((magicByteOk ⟨3, 4, 170, 5⟩).2 = true ↔
        (⟨3, 4, 170, 5⟩ : msgpacket).magicByte = MAGIC_BYTE) ∧
      MAGIC_BYTE = 170 ∧
      (magicByteOk (createMessageFloat ⟨3, 4, 170, 5⟩ 7 .BANK1)).2 = true ∧
      (magicByteOk (createMessageUint ⟨3, 4, 170, 5⟩ 7 .BANK1)).2 = true ∧
      (magicByteOk ⟨3, 4, 171, 5⟩).2 = false :=
  C6_magicByteOk_iff ⟨3, 4, 170, 5⟩ ⟨3, 4, 170, 5⟩ ⟨3, 4, 171, 5⟩ 7 .BANK1
    (by decide) (by decide)

/-- C7 counterexample: the enumeration does not have sixteen variants — the
duplicate-free list of its enumerators has length 18, not 16. -/
theorem C7_counterexample_eighteen_kinds :
    allKinds.length = 18 ∧ allKinds.Nodup ∧ allKinds.length ≠ 16 := by
  refine ⟨rfl, by decide, by decide⟩

/-- C7 (amended: eighteen variants, not sixteen): the Message Kind
enumeration consists of exactly the eighteen names WAVELEN0, BANK0, BANK1,
CTRL, CTRL0, CTRL1, CTRL2, CTRL3, CTRL4, CTRL5, DETUNE, OCTSPREAD,
METAMOD3, METAMOD4, METAMOD5, METAMOD6, METAMOD7, METAMOD8 in that fixed
order, with ordinals 0–17 assigned in ascending order. -/
theorem C7_amended_enumeration :
    allKinds.length = 18 ∧ allKinds.Nodup ∧
      (∀ k : messageTypes, k ∈ allKinds) ∧
      allKinds.map messageTypes.toNat = List.range 18 := by
  refine ⟨rfl, by decide, fun k => by cases k <;> simp [allKinds], by decide⟩

/-- C9: frame conditions.  The two construction overloads write only value,
msgType and checksum, leaving magicByte unchanged (the struct's only other
field); the two verification routines take the packet by pointer, never
write through it, and return exactly the packet they were given. -/
theorem C9_frame_conditions (p : msgpacket) (b u : Nat) (k : messageTypes) :
    (createMessageFloat p b k).magicByte = p.magicByte ∧
      (createMessageUint p u k).magicByte = p.magicByte ∧
      (checksumIsOk p).1 = p ∧
      (magicByteOk p).1 = p :=
  ⟨rfl, rfl, rfl, rfl⟩

/-- C8: checksum sensitivity.  After either construction overload, flipping
any single one of the 32 bits of the value slot, with the stored checksum
left untouched, makes checksumIsOk answer false — for every input value,
every kind and every bit position. -/
theorem C8_single_bit_flip_detected (p : msgpacket) (b u : Nat)
    (k : messageTypes) (i : Nat) (hi : i < 32) :
    (checksumIsOk (flipValueBit (createMessageFloat p b k) i)).2 = false ∧
      (checksumIsOk (flipValueBit (createMessageUint p u k) i)).2 = false :=
  ⟨checksumIsOk_flip_calcCheckSum _ i hi, checksumIsOk_flip_calcCheckSum _ i hi⟩

theorem C8_single_bit_flip_detected_witness :
    (checksumIsOk
        (flipValueBit (createMessageFloat ⟨0, 0, 170, 0⟩ floatBits440 .DETUNE) 7)).2 =
        false ∧
      (checksumIsOk
        (flipValueBit (createMessageUint ⟨0, 0, 170, 0⟩ 123 .DETUNE) 7)).2 = false :=
  C8_single_bit_flip_detected ⟨0, 0, 170, 0⟩ floatBits440 123 .DETUNE 7 (by decide)

/-- C10: undetectable two-half corruption.  XORing the value slot with
((m << 16) | m) for a 16-bit mask m — flipping the same bit positions in
both halves — leaves the recomputed checksum unchanged, so checksumIsOk
answers on the corrupted packet exactly what it answered on the original
(in particular it still answers true when the packet was validly built). -/
theorem C10_two_half_corruption_undetected (q : msgpacket) (m : Nat)
    (hm : m < 2 ^ 16) (_hm0 : m ≠ 0) :
    (calcCheckSum (corruptBothHalves q m)).checksum = (calcCheckSum q).checksum ∧
      (checksumIsOk (corruptBothHalves q m)).2 = (checksumIsOk q).2 := by
  have h := checksumSpec_corrupt q.value q.msgType m hm
  constructor
  · show checksumSpec ((q.value ^^^ ((m <<< 16) ||| m)) % 2 ^ 32) q.msgType =
      checksumSpec (q.value % 2 ^ 32) q.msgType
    exact h
  · show (q.checksum ==
        checksumSpec ((q.value ^^^ ((m <<< 16) ||| m)) % 2 ^ 32) q.msgType) =
      (q.checksum == checksumSpec (q.value % 2 ^ 32) q.msgType)
    rw [h]

theorem C10_two_half_corruption_undetected_witness :
    (calcCheckSum (corruptBothHalves ⟨0xDEADBEEF, 3, 170, 0⟩ 0x0F0F)).checksum =
        (calcCheckSum ⟨0xDEADBEEF, 3, 170, 0⟩).checksum ∧
      (checksumIsOk (corruptBothHalves ⟨0xDEADBEEF, 3, 170, 0⟩ 0x0F0F)).2 =
        (checksumIsOk ⟨0xDEADBEEF, 3, 170, 0⟩).2 :=
  C10_two_half_corruption_undetected ⟨0xDEADBEEF, 3, 170, 0⟩ 0x0F0F
    (by decide) (by decide)

end streamMessaging
